import Mathlib

/-!
Verification development for the ANF-AIOps repository: thin FastAPI façades
over the Azure NetApp Files management SDK, plus a small typed HTTP client.

The handlers are embedded as pure functions.  Every interaction with the
external control plane goes through an injected `NetAppSdk` record of
functions; a handler returns its HTTP response together with the ordered
trace of SDK calls it issued, so that "issues zero external calls",
"exactly one mutating call" and "returns without waiting" become statements
about the trace.
-/

namespace ANF

/-- JSON values, standing in for Python dicts/lists produced and consumed by
the handlers (`as_dict` results, request params, response bodies). -/
inductive Json where
  | null : Json
  | bool : Bool → Json
  | int : Int → Json
  | str : String → Json
  | arr : List Json → Json
  | obj : List (String × Json) → Json

/-- `azure.core.exceptions.HttpResponseError`: the failure the SDK raises,
carrying the remote status code and message. -/
structure HttpResponseError where
  status_code : Nat
  message : String
deriving DecidableEq, Repr

/-- An LRO poller as the handlers use it: `polling_url()` is a string and
`result()` either yields the terminal resource payload or raises an
`HttpResponseError` when the operation fails asynchronously. -/
structure Poller where
  polling_url : String
  result : Except HttpResponseError Json

/-- One call issued to the external control-plane client (or to a poller
obtained from it).  `pollerResult` records a blocking `poller.result()`. -/
inductive SdkCall where
  | poolsBeginCreateOrUpdate (rg account pool : String) (params : Json)
  | poolsBeginDelete (rg account pool : String)
  | poolsList (rg account : String)
  | accountsBeginCreateOrUpdate (rg account : String) (params : Json)
  | accountsBeginDelete (rg account : String)
  | accountsList (rg : String)
  | pollerResult

/-- Which trace entries are mutating calls against the external system. -/
def SdkCall.isMutating : SdkCall → Bool
  | .poolsBeginCreateOrUpdate _ _ _ _ => true
  | .poolsBeginDelete _ _ _ => true
  | .accountsBeginCreateOrUpdate _ _ _ => true
  | .accountsBeginDelete _ _ => true
  | .poolsList _ _ => false
  | .accountsList _ => false
  | .pollerResult => false

/-- Number of mutating external calls in a trace. -/
def mutatingCalls (tr : List SdkCall) : Nat :=
  (tr.filter SdkCall.isMutating).length

/-- The behaviour of the external `NetAppManagementClient`: each operation
either returns (a poller, or a listing) or raises `HttpResponseError`
synchronously.  Injected into every handler. -/
structure NetAppSdk where
  pools_begin_create_or_update : String → String → String → Json → Except HttpResponseError Poller
  pools_begin_delete : String → String → String → Except HttpResponseError Poller
  pools_list : String → String → Except HttpResponseError (List Json)
  accounts_begin_create_or_update : String → String → Json → Except HttpResponseError Poller
  accounts_begin_delete : String → String → Except HttpResponseError Poller
  accounts_list : String → Except HttpResponseError (List Json)

/-- The HTTP outcome of a handler: a normal return with the route's status
code and a JSON body, or a raised `HTTPException` with status and detail. -/
inductive Response where
  | ok (status : Nat) (body : Json)
  | error (status : Nat) (detail : String)

/-- `sdk_error` from `mcp_server/routers/accounts.py` (identical to `_err`
in the anf_aiops_complete variant): shape an `HttpResponseError` into the
`HTTPException` the handler raises, passing status code and message through. -/
def sdk_error (err : HttpResponseError) : Response :=
  .error err.status_code err.message

/-- `PoolBody` from `mcp_server/routers/pools.py` (field-for-field the same
data as `PoolSpec` in the anf_aiops_complete variant; only the latter
declares validation constraints, see `poolSpecValid`). -/
structure PoolBody where
  account : String
  pool : String
  location : String
  size_tb : Int
  service_level : String
deriving DecidableEq, Repr

/-- The `params` dict built by `create_pool`:
location, sku.name from the service level, size in bytes (TiB × 1024⁴). -/
def poolParams (body : PoolBody) : Json :=
  .obj [("location", .str body.location),
        ("sku", .obj [("name", .str body.service_level)]),
        ("size", .int (body.size_tb * 1024 ^ 4))]

/-- `create_pool` from `mcp_server/routers/pools.py`: POST /pools/ with
decorator status 202.  Calls `pools.begin_create_or_update`; on `wait`
blocks on `poller.result()` and returns its dict, otherwise returns
`{"operation": poller.polling_url()}`; an `HttpResponseError` anywhere in
the try block becomes `sdk_error err`. -/
def create_pool (sdk : NetAppSdk) (rg : String) (body : PoolBody) (wait : Bool) :
    Response × List SdkCall :=
  match sdk.pools_begin_create_or_update rg body.account body.pool (poolParams body) with
  | .error err =>
      (sdk_error err, [.poolsBeginCreateOrUpdate rg body.account body.pool (poolParams body)])
  | .ok poller =>
      if wait then
        match poller.result with
        | .error err =>
            (sdk_error err,
             [.poolsBeginCreateOrUpdate rg body.account body.pool (poolParams body), .pollerResult])
        | .ok res =>
            (.ok 202 res,
             [.poolsBeginCreateOrUpdate rg body.account body.pool (poolParams body), .pollerResult])
      else
        (.ok 202 (.obj [("operation", .str poller.polling_url)]),
         [.poolsBeginCreateOrUpdate rg body.account body.pool (poolParams body)])

/-- The patch body built by `update_pool`: Python truthiness drops a size of
0 (`if new_size_tb:`) and an empty service level string (`if service_level:`). -/
def updateBody (new_size_tb : Option Int) (service_level : Option String) : Json :=
  .obj ((match new_size_tb with
         | some n => if n ≠ 0 then [("size", Json.int (n * 1024 ^ 4))] else []
         | none => []) ++
        (match service_level with
         | some s => if s ≠ "" then [("sku", Json.obj [("name", Json.str s)])] else []
         | none => []))

/-- `update_pool` from `mcp_server/routers/pools.py` (line-identical logic in
the anf_aiops_complete variant): PATCH /pools/ with decorator status 202.
Raises 400 when both optional fields are `None`, otherwise builds the patch
body by truthiness and calls `pools.begin_create_or_update`. -/
def update_pool (sdk : NetAppSdk) (rg account pool : String)
    (new_size_tb : Option Int) (service_level : Option String) (wait : Bool) :
    Response × List SdkCall :=
  if new_size_tb = none ∧ service_level = none then
    (.error 400 "Specify new_size_tb or service_level", [])
  else
    match sdk.pools_begin_create_or_update rg account pool (updateBody new_size_tb service_level) with
    | .error err =>
        (sdk_error err,
         [.poolsBeginCreateOrUpdate rg account pool (updateBody new_size_tb service_level)])
    | .ok poller =>
        if wait then
          match poller.result with
          | .error err =>
              (sdk_error err,
               [.poolsBeginCreateOrUpdate rg account pool (updateBody new_size_tb service_level),
                .pollerResult])
          | .ok res =>
              (.ok 202 res,
               [.poolsBeginCreateOrUpdate rg account pool (updateBody new_size_tb service_level),
                .pollerResult])
        else
          (.ok 202 (.obj [("operation", .str poller.polling_url)]),
           [.poolsBeginCreateOrUpdate rg account pool (updateBody new_size_tb service_level)])

/-- `delete_pool` from `mcp_server/routers/pools.py`: DELETE /pools/ with
decorator status 202.  On `wait`, consumes `poller.result()` (discarding it)
and returns `{"status": "deleted"}`. -/
def delete_pool (sdk : NetAppSdk) (rg account pool : String) (wait : Bool) :
    Response × List SdkCall :=
  match sdk.pools_begin_delete rg account pool with
  | .error err => (sdk_error err, [.poolsBeginDelete rg account pool])
  | .ok poller =>
      if wait then
        match poller.result with
        | .error err => (sdk_error err, [.poolsBeginDelete rg account pool, .pollerResult])
        | .ok _ =>
            (.ok 202 (.obj [("status", .str "deleted")]),
             [.poolsBeginDelete rg account pool, .pollerResult])
      else
        (.ok 202 (.obj [("operation", .str poller.polling_url)]),
         [.poolsBeginDelete rg account pool])

/-- `list_pools` from `mcp_server/routers/pools.py`: GET /pools/ (status 200),
returns the listed pools as dicts. -/
def list_pools (sdk : NetAppSdk) (rg account : String) : Response × List SdkCall :=
  match sdk.pools_list rg account with
  | .error err => (sdk_error err, [.poolsList rg account])
  | .ok ps => (.ok 200 (.arr ps), [.poolsList rg account])

/-- `AccountCreateBody` from `mcp_server/routers/accounts.py`: name, region
and an optional active-directory dict (modelled by its entry list). -/
structure AccountCreateBody where
  name : String
  location : String
  active_directory : Option (List (String × Json))

/-- The params dict built by `create_account`:
`{"location": ..., "properties": {"activeDirectories": [ad] if ad else []}}`.
Python truthiness makes both `None` and an empty dict yield `[]`. -/
def accountParams (body : AccountCreateBody) : Json :=
  .obj [("location", .str body.location),
        ("properties",
         .obj [("activeDirectories",
                .arr (match body.active_directory with
                      | some [] => []
                      | some d => [Json.obj d]
                      | none => []))])]

/-- `create_account` from `mcp_server/routers/accounts.py`: POST /accounts/
with decorator status 202; same wait/no-wait branching as the pool routes. -/
def create_account (sdk : NetAppSdk) (rg : String) (body : AccountCreateBody) (wait : Bool) :
    Response × List SdkCall :=
  match sdk.accounts_begin_create_or_update rg body.name (accountParams body) with
  | .error err =>
      (sdk_error err, [.accountsBeginCreateOrUpdate rg body.name (accountParams body)])
  | .ok poller =>
      if wait then
        match poller.result with
        | .error err =>
            (sdk_error err,
             [.accountsBeginCreateOrUpdate rg body.name (accountParams body), .pollerResult])
        | .ok res =>
            (.ok 202 res,
             [.accountsBeginCreateOrUpdate rg body.name (accountParams body), .pollerResult])
      else
        (.ok 202 (.obj [("operation", .str poller.polling_url)]),
         [.accountsBeginCreateOrUpdate rg body.name (accountParams body)])

/-- `delete_account` from `mcp_server/routers/accounts.py`: DELETE
/accounts/{account_name} with decorator status 202; on `wait`, consumes
`poller.result()` and returns `{"status": "deleted"}`. -/
def delete_account (sdk : NetAppSdk) (rg account_name : String) (wait : Bool) :
    Response × List SdkCall :=
  match sdk.accounts_begin_delete rg account_name with
  | .error err => (sdk_error err, [.accountsBeginDelete rg account_name])
  | .ok poller =>
      if wait then
        match poller.result with
        | .error err => (sdk_error err, [.accountsBeginDelete rg account_name, .pollerResult])
        | .ok _ =>
            (.ok 202 (.obj [("status", .str "deleted")]),
             [.accountsBeginDelete rg account_name, .pollerResult])
      else
        (.ok 202 (.obj [("operation", .str poller.polling_url)]),
         [.accountsBeginDelete rg account_name])

/-- `list_accounts` from `mcp_server/routers/accounts.py`: GET /accounts/
(status 200). -/
def list_accounts (sdk : NetAppSdk) (rg : String) : Response × List SdkCall :=
  match sdk.accounts_list rg with
  | .error err => (sdk_error err, [.accountsList rg])
  | .ok accts => (.ok 200 (.arr accts), [.accountsList rg])

/-- `health` from `mcp_server/app.py`: GET /health, no auth dependency,
returns `{"status": "ok"}` with status 200 and touches no external client. -/
def health : Response × List SdkCall :=
  (.ok 200 (.obj [("status", .str "ok")]), [])

/-- `os.getenv(key, default)`. -/
def getenv (env : String → Option String) (key dflt : String) : String :=
  (env key).getD dflt

/-- `API_KEY = os.getenv("MCP_API_KEY", "changeme")` from `mcp_server/app.py`
(the routers compute the same value). -/
def API_KEY (env : String → Option String) : String :=
  getenv env "MCP_API_KEY" "changeme"

/-- `verify_key` from `mcp_server/app.py` and both routers: raises
`HTTPException(401, "Invalid API Key")` when the presented header differs
from the configured key, otherwise lets the request through (`none`). -/
def verify_key (api_key x_api_key : String) : Option Response :=
  if x_api_key ≠ api_key then some (.error 401 "Invalid API Key") else none

/-- A parsed inbound request to the mcp_server app: one constructor per
route the two routers register, plus the unauthenticated health route. -/
inductive Request where
  | health
  | listPools (account : String)
  | createPool (body : PoolBody) (wait : Bool)
  | updatePool (account pool : String) (new_size_tb : Option Int)
      (service_level : Option String) (wait : Bool)
  | deletePool (account pool : String) (wait : Bool)
  | listAccounts
  | createAccount (body : AccountCreateBody) (wait : Bool)
  | deleteAccount (account_name : String) (wait : Bool)

/-- Modelled from the spec: the required-header machinery for
`x_api_key: str = Header(...)` lives in the web framework, outside this
repository.  Per the spec's auth contract ("every non-health route requires
header x-api-key"; testable property: requests "without a correct x-api-key"
get 401) and the repository's own tests, which send no header at all and
assert 401, a request missing the header is rejected exactly like one with a
wrong key. -/
def missing_header_response : Response :=
  .error 401 "Invalid API Key"

/-- Route dispatch into the handlers, after authentication has passed. -/
def dispatch (sdk : NetAppSdk) (rg : String) : Request → Response × List SdkCall
  | .health => health
  | .listPools account => list_pools sdk rg account
  | .createPool body wait => create_pool sdk rg body wait
  | .updatePool account pool nsz sl wait => update_pool sdk rg account pool nsz sl wait
  | .deletePool account pool wait => delete_pool sdk rg account pool wait
  | .listAccounts => list_accounts sdk rg
  | .createAccount body wait => create_account sdk rg body wait
  | .deleteAccount name wait => delete_account sdk rg name wait

/-- The mcp_server app: `/health` is served without auth; every other route
carries `dependencies=[Depends(verify_key)]`, so the key check runs before
the handler body and a failure produces the 401 with no handler execution
(hence no external call).  An absent header is rejected per
`missing_header_response`. -/
def app_handle (sdk : NetAppSdk) (rg api_key : String) (x_api_key : Option String)
    (req : Request) : Response × List SdkCall :=
  match req with
  | .health => health
  | req =>
      match x_api_key with
      | none => (missing_header_response, [])
      | some k =>
          match verify_key api_key k with
          | some resp => (resp, [])
          | none => dispatch sdk rg req

/-- The validation constraints declared on `PoolSpec` in
`anf_aiops_complete/mcp_server/routers/pools.py`:
`size_tb: int = Field(..., gt=0)` and
`service_level: str = Field(..., regex="^(Ultra|Premium|Standard|StandardZRS)$")`. -/
def poolSpecValid (spec : PoolBody) : Bool :=
  decide (spec.size_tb > 0) &&
  (spec.service_level == "Ultra" || spec.service_level == "Premium" ||
   spec.service_level == "Standard" || spec.service_level == "StandardZRS")

namespace Complete

/-- The POST /pools/ route of the anf_aiops_complete variant: pydantic
enforces the `PoolSpec` constraints before the handler body runs, so an
invalid spec is rejected with the framework's 422 validation error and the
handler (identical in substance to `create_pool` above) never executes. -/
def create_pool_route (sdk : NetAppSdk) (rg : String) (spec : PoolBody) (wait : Bool) :
    Response × List SdkCall :=
  if poolSpecValid spec then create_pool sdk rg spec wait
  else (.error 422 "validation error", [])

end Complete

/-- An HTTP response as `requests` hands it to the thin client: status code,
raw text body, and the JSON-decoded payload `resp.json()` would produce. -/
structure HttpWireResponse where
  status_code : Nat
  text : String
  json : Json

namespace AnfMcpClient

/-- `ApiError` from `sdk/azure_netapp_mcp_client/client.py`: a generic
exception whose message is `f"{resp.status_code} {resp.text}"`. -/
structure ApiError where
  message : String
deriving DecidableEq, Repr

/-- `AnfMcpClient.__init__` key resolution:
`self.api_key = api_key or os.getenv("MCP_API_KEY") or "changeme"`.
Python `or` falls through on `None` and on the empty string. -/
def init_api_key (env : String → Option String) (api_key : Option String) : String :=
  let envOr : String :=
    match env "MCP_API_KEY" with
    | some s => if s ≠ "" then s else "changeme"
    | none => "changeme"
  match api_key with
  | some s => if s ≠ "" then s else envOr
  | none => envOr

/-- `AnfMcpClient._request`: performs exactly one `requests.request` call
(the Nat in the result counts transport invocations); a status of 400 or
above raises `ApiError(f"{resp.status_code} {resp.text}")`, anything below
returns `resp.json()`. -/
def request (transport : String → String → HttpWireResponse)
    (base_url : String) (method path : String) :
    Except ApiError Json × Nat :=
  let resp := transport method (base_url ++ path)
  if resp.status_code ≥ 400 then
    (.error ⟨toString resp.status_code ++ " " ++ resp.text⟩, 1)
  else
    (.ok resp.json, 1)

end AnfMcpClient

/-!
Concrete fixtures: a stub collaborator whose calls all succeed, used to
instantiate the universally quantified theorems below at closed inputs.
-/

/-- A poller whose LRO succeeds with a fixed resource payload. -/
def stubPoller : Poller :=
  { polling_url := "https://poll.example/op1",
    result := .ok (.obj [("name", .str "res1")]) }

/-- A stub control-plane client: every operation succeeds. -/
def stubSdk : NetAppSdk :=
  { pools_begin_create_or_update := fun _ _ _ _ => .ok stubPoller,
    pools_begin_delete := fun _ _ _ => .ok stubPoller,
    pools_list := fun _ _ => .ok [],
    accounts_begin_create_or_update := fun _ _ _ => .ok stubPoller,
    accounts_begin_delete := fun _ _ => .ok stubPoller,
    accounts_list := fun _ => .ok [] }

/-- A pool body violating both `PoolSpec` constraints: non-positive size and
a service level outside the enumerated set. -/
def badPoolBody : PoolBody :=
  { account := "acct1", pool := "pool1", location := "eastus",
    size_tb := 0, service_level := "Bogus" }

/-- A pool body satisfying the `PoolSpec` constraints. -/
def okPoolBody : PoolBody :=
  { account := "acct1", pool := "pool1", location := "eastus",
    size_tb := 4, service_level := "Premium" }

/-- A concrete account-creation body without active directory. -/
def okAccountBody : AccountCreateBody :=
  { name := "acct1", location := "eastus", active_directory := none }

/-- C1, counterexample.  The claim quantifies over "the create handler", and
its sources include `create_pool` of the plain mcp_server variant, whose
`PoolBody` declares no constraints: at size_tb = 0 and service level
"Bogus" that handler performs no validation, issues one external
control-plane call (not zero) and answers 202, not a 4xx validation
error. -/
theorem c1_counterexample :
    (create_pool stubSdk "rg" badPoolBody false).fst =
      .ok 202 (.obj [("operation", .str "https://poll.example/op1")]) ∧
    mutatingCalls (create_pool stubSdk "rg" badPoolBody false).snd = 1 :=
  ⟨rfl, rfl⟩

/-- C1, amended.  In the anf_aiops_complete variant, whose `PoolSpec`
declares `gt=0` and the service-level regex, any create request violating
those constraints is rejected by the framework's 422 validation error with
zero external control-plane calls; the plain mcp_server variant declares no
such constraints and forwards the request. -/
theorem c1_create_validation (sdk : NetAppSdk) (rg : String) (spec : PoolBody) (wait : Bool)
    (h : poolSpecValid spec = false) :
    Complete.create_pool_route sdk rg spec wait = (.error 422 "validation error", []) := by
  simp [Complete.create_pool_route, h]

/-- C1, witness: the amended theorem applied to a spec with size 0 and an
unrecognized tier. -/
theorem c1_create_validation_witness :
    Complete.create_pool_route stubSdk "rg" badPoolBody false =
      (.error 422 "validation error", []) :=
  c1_create_validation stubSdk "rg" badPoolBody false (by decide)

/-- C2: any request to a route other than GET /health whose x-api-key header
is absent or differs from the configured key is answered 401 with no
external control-plane call. -/
theorem c2_auth_401 (sdk : NetAppSdk) (rg api_key : String) (x_api_key : Option String)
    (req : Request) (hreq : req ≠ .health)
    (hkey : ∀ k, x_api_key = some k → k ≠ api_key) :
    app_handle sdk rg api_key x_api_key req = (.error 401 "Invalid API Key", []) := by
  cases req <;>
    first
    | exact absurd rfl hreq
    | (cases x_api_key with
       | none => rfl
       | some k => simp [app_handle, verify_key, hkey k rfl])

/-- C2, witness: a wrong key on the accounts listing route. -/
theorem c2_auth_401_witness :
    app_handle stubSdk "rg" "secret" (some "wrong") .listAccounts =
      (.error 401 "Invalid API Key", []) :=
  c2_auth_401 stubSdk "rg" "secret" (some "wrong") .listAccounts
    (by intro h; exact Request.noConfusion h)
    (by intro k hk; cases hk; decide)

/-- C5: a pool-update request with both `new_size_tb` and `service_level`
absent is answered 400 ("Specify new_size_tb or service_level") with no
external control-plane call. -/
theorem c5_update_both_absent (sdk : NetAppSdk) (rg account pool : String) (wait : Bool) :
    update_pool sdk rg account pool none none wait =
      (.error 400 "Specify new_size_tb or service_level", []) := by
  simp [update_pool]

/-- C10: a pool-update request with `new_size_tb = 0` and `service_level`
absent passes the `is None` check (so the validation 400 is not raised and a
control-plane call is made), yet Python truthiness drops the size field, so
the patch body forwarded to the control plane is the empty object. -/
theorem c10_zero_size_empty_patch (sdk : NetAppSdk) (rg account pool : String) (wait : Bool) :
    (update_pool sdk rg account pool (some 0) none wait).snd.head? =
      some (.poolsBeginCreateOrUpdate rg account pool (.obj [])) ∧
    update_pool sdk rg account pool (some 0) none wait ≠
      (.error 400 "Specify new_size_tb or service_level", []) := by
  have hbody : updateBody (some 0) none = .obj [] := rfl
  have h1 : (update_pool sdk rg account pool (some 0) none wait).snd.head? =
      some (.poolsBeginCreateOrUpdate rg account pool (.obj [])) := by
    cases hc : sdk.pools_begin_create_or_update rg account pool (.obj []) with
    | error e => simp [update_pool, hbody, hc]
    | ok p =>
      cases wait with
      | false => simp [update_pool, hbody, hc]
      | true =>
        cases hr : p.result with
        | error e => simp [update_pool, hbody, hc, hr]
        | ok r => simp [update_pool, hbody, hc, hr]
  refine ⟨h1, fun hcontra => ?_⟩
  rw [hcontra] at h1
  exact Option.noConfusion h1

/-- C3: every successful mutating call (pool create/update/delete, account
create/delete) with wait=false answers 202 with body
`{"operation": poller.polling_url()}` and never invokes the blocking
`poller.result()`. -/
theorem c3_wait_false_operation (sdk : NetAppSdk) (rg : String) :
    (∀ (body : PoolBody) (p : Poller),
        sdk.pools_begin_create_or_update rg body.account body.pool (poolParams body) = .ok p →
        (create_pool sdk rg body false).fst =
            .ok 202 (.obj [("operation", .str p.polling_url)]) ∧
          SdkCall.pollerResult ∉ (create_pool sdk rg body false).snd) ∧
    (∀ (account pool : String) (nsz : Option Int) (sl : Option String) (p : Poller),
        sdk.pools_begin_create_or_update rg account pool (updateBody nsz sl) = .ok p →
        ¬(nsz = none ∧ sl = none) →
        (update_pool sdk rg account pool nsz sl false).fst =
            .ok 202 (.obj [("operation", .str p.polling_url)]) ∧
          SdkCall.pollerResult ∉ (update_pool sdk rg account pool nsz sl false).snd) ∧
    (∀ (account pool : String) (p : Poller),
        sdk.pools_begin_delete rg account pool = .ok p →
        (delete_pool sdk rg account pool false).fst =
            .ok 202 (.obj [("operation", .str p.polling_url)]) ∧
          SdkCall.pollerResult ∉ (delete_pool sdk rg account pool false).snd) ∧
    (∀ (body : AccountCreateBody) (p : Poller),
        sdk.accounts_begin_create_or_update rg body.name (accountParams body) = .ok p →
        (create_account sdk rg body false).fst =
            .ok 202 (.obj [("operation", .str p.polling_url)]) ∧
          SdkCall.pollerResult ∉ (create_account sdk rg body false).snd) ∧
    (∀ (name : String) (p : Poller),
        sdk.accounts_begin_delete rg name = .ok p →
        (delete_account sdk rg name false).fst =
            .ok 202 (.obj [("operation", .str p.polling_url)]) ∧
          SdkCall.pollerResult ∉ (delete_account sdk rg name false).snd) := by
  refine ⟨?_, ?_, ?_, ?_, ?_⟩
  · intro body p h
    simp [create_pool, h]
  · intro account pool nsz sl p h hne
    simp [update_pool, hne, h]
  · intro account pool p h
    simp [delete_pool, h]
  · intro body p h
    simp [create_account, h]
  · intro name p h
    simp [delete_account, h]

/-- C3, witness: each wait=false route instantiated on the stub
collaborator. -/
theorem c3_wait_false_operation_witness :
    ((create_pool stubSdk "rg" okPoolBody false).fst =
        .ok 202 (.obj [("operation", .str stubPoller.polling_url)]) ∧
      SdkCall.pollerResult ∉ (create_pool stubSdk "rg" okPoolBody false).snd) ∧
    ((update_pool stubSdk "rg" "acct1" "pool1" (some 4) none false).fst =
        .ok 202 (.obj [("operation", .str stubPoller.polling_url)]) ∧
      SdkCall.pollerResult ∉ (update_pool stubSdk "rg" "acct1" "pool1" (some 4) none false).snd) ∧
    ((delete_pool stubSdk "rg" "acct1" "pool1" false).fst =
        .ok 202 (.obj [("operation", .str stubPoller.polling_url)]) ∧
      SdkCall.pollerResult ∉ (delete_pool stubSdk "rg" "acct1" "pool1" false).snd) ∧
    ((create_account stubSdk "rg" okAccountBody false).fst =
        .ok 202 (.obj [("operation", .str stubPoller.polling_url)]) ∧
      SdkCall.pollerResult ∉ (create_account stubSdk "rg" okAccountBody false).snd) ∧
    ((delete_account stubSdk "rg" "acct1" false).fst =
        .ok 202 (.obj [("operation", .str stubPoller.polling_url)]) ∧
      SdkCall.pollerResult ∉ (delete_account stubSdk "rg" "acct1" false).snd) :=
  ⟨(c3_wait_false_operation stubSdk "rg").1 okPoolBody stubPoller rfl,
   (c3_wait_false_operation stubSdk "rg").2.1 "acct1" "pool1" (some 4) none stubPoller rfl
     (by simp),
   (c3_wait_false_operation stubSdk "rg").2.2.1 "acct1" "pool1" stubPoller rfl,
   (c3_wait_false_operation stubSdk "rg").2.2.2.1 okAccountBody stubPoller rfl,
   (c3_wait_false_operation stubSdk "rg").2.2.2.2 "acct1" stubPoller rfl⟩

/-- C4, counterexample.  The claim includes deletes among the handlers whose
wait=true response "is the final resource representation": but the delete
routes discard `poller.result()` and answer the fixed literal
`{"status": "deleted"}`, which differs from the stub LRO's terminal
payload. -/
theorem c4_counterexample :
    stubPoller.result = .ok (.obj [("name", .str "res1")]) ∧
    (delete_pool stubSdk "rg" "acct1" "pool1" true).fst =
      .ok 202 (.obj [("status", .str "deleted")]) ∧
    Json.obj [("status", .str "deleted")] ≠ Json.obj [("name", .str "res1")] := by
  refine ⟨rfl, rfl, ?_⟩
  simp

/-- C4, amended.  When wait=true and the LRO succeeds, pool create/update
and account create answer 202 with exactly the terminal resource payload
(no operation wrapper); the delete routes instead answer the literal
`{"status": "deleted"}`, which likewise carries no operation reference. -/
theorem c4_wait_true_final (sdk : NetAppSdk) (rg : String) :
    (∀ (body : PoolBody) (p : Poller) (res : Json),
        sdk.pools_begin_create_or_update rg body.account body.pool (poolParams body) = .ok p →
        p.result = .ok res →
        (create_pool sdk rg body true).fst = .ok 202 res) ∧
    (∀ (account pool : String) (nsz : Option Int) (sl : Option String) (p : Poller) (res : Json),
        sdk.pools_begin_create_or_update rg account pool (updateBody nsz sl) = .ok p →
        p.result = .ok res → ¬(nsz = none ∧ sl = none) →
        (update_pool sdk rg account pool nsz sl true).fst = .ok 202 res) ∧
    (∀ (account pool : String) (p : Poller) (res : Json),
        sdk.pools_begin_delete rg account pool = .ok p → p.result = .ok res →
        (delete_pool sdk rg account pool true).fst =
          .ok 202 (.obj [("status", .str "deleted")])) ∧
    (∀ (body : AccountCreateBody) (p : Poller) (res : Json),
        sdk.accounts_begin_create_or_update rg body.name (accountParams body) = .ok p →
        p.result = .ok res →
        (create_account sdk rg body true).fst = .ok 202 res) ∧
    (∀ (name : String) (p : Poller) (res : Json),
        sdk.accounts_begin_delete rg name = .ok p → p.result = .ok res →
        (delete_account sdk rg name true).fst =
          .ok 202 (.obj [("status", .str "deleted")])) := by
  refine ⟨?_, ?_, ?_, ?_, ?_⟩
  · intro body p res h hr
    simp [create_pool, h, hr]
  · intro account pool nsz sl p res h hr hne
    simp [update_pool, hne, h, hr]
  · intro account pool p res h hr
    simp [delete_pool, h, hr]
  · intro body p res h hr
    simp [create_account, h, hr]
  · intro name p res h hr
    simp [delete_account, h, hr]

/-- C4, witness: each wait=true route instantiated on the stub collaborator,
whose LRO terminates successfully with the fixed payload. -/
theorem c4_wait_true_final_witness :
    (create_pool stubSdk "rg" okPoolBody true).fst =
        .ok 202 (.obj [("name", .str "res1")]) ∧
    (update_pool stubSdk "rg" "acct1" "pool1" (some 4) none true).fst =
        .ok 202 (.obj [("name", .str "res1")]) ∧
    (delete_pool stubSdk "rg" "acct1" "pool1" true).fst =
        .ok 202 (.obj [("status", .str "deleted")]) ∧
    (create_account stubSdk "rg" okAccountBody true).fst =
        .ok 202 (.obj [("name", .str "res1")]) ∧
    (delete_account stubSdk "rg" "acct1" true).fst =
        .ok 202 (.obj [("status", .str "deleted")]) :=
  ⟨(c4_wait_true_final stubSdk "rg").1 okPoolBody stubPoller (.obj [("name", .str "res1")])
     rfl rfl,
   (c4_wait_true_final stubSdk "rg").2.1 "acct1" "pool1" (some 4) none stubPoller
     (.obj [("name", .str "res1")]) rfl rfl (by simp),
   (c4_wait_true_final stubSdk "rg").2.2.1 "acct1" "pool1" stubPoller
     (.obj [("name", .str "res1")]) rfl rfl,
   (c4_wait_true_final stubSdk "rg").2.2.2.1 okAccountBody stubPoller
     (.obj [("name", .str "res1")]) rfl rfl,
   (c4_wait_true_final stubSdk "rg").2.2.2.2 "acct1" stubPoller
     (.obj [("name", .str "res1")]) rfl rfl⟩

/-- A fixed remote failure used by the error-path fixtures. -/
def stubErr : HttpResponseError :=
  { status_code := 409, message := "Conflict: pool exists" }

/-- A stub control-plane client whose every call fails synchronously with
`stubErr`. -/
def errSdk : NetAppSdk :=
  { pools_begin_create_or_update := fun _ _ _ _ => .error stubErr,
    pools_begin_delete := fun _ _ _ => .error stubErr,
    pools_list := fun _ _ => .error stubErr,
    accounts_begin_create_or_update := fun _ _ _ => .error stubErr,
    accounts_begin_delete := fun _ _ => .error stubErr,
    accounts_list := fun _ => .error stubErr }

/-- A poller whose LRO terminates in failure with `stubErr`. -/
def failPoller : Poller :=
  { polling_url := "https://poll.example/op2", result := .error stubErr }

/-- A stub control-plane client that accepts every mutation but whose LRO
then fails with `stubErr`. -/
def lroFailSdk : NetAppSdk :=
  { pools_begin_create_or_update := fun _ _ _ _ => .ok failPoller,
    pools_begin_delete := fun _ _ _ => .ok failPoller,
    pools_list := fun _ _ => .ok [],
    accounts_begin_create_or_update := fun _ _ _ => .ok failPoller,
    accounts_begin_delete := fun _ _ => .ok failPoller,
    accounts_list := fun _ => .ok [] }

/-- C6: whenever the control-plane client fails a call — synchronously, or
at LRO completion under wait=true — the handler's error response carries
exactly the remote status code and exactly the remote message. -/
theorem c6_error_passthrough (sdk : NetAppSdk) (rg : String) (e : HttpResponseError) :
    (∀ (body : PoolBody) (wait : Bool),
        sdk.pools_begin_create_or_update rg body.account body.pool (poolParams body) = .error e →
        (create_pool sdk rg body wait).fst = .error e.status_code e.message) ∧
    (∀ (body : PoolBody) (p : Poller),
        sdk.pools_begin_create_or_update rg body.account body.pool (poolParams body) = .ok p →
        p.result = .error e →
        (create_pool sdk rg body true).fst = .error e.status_code e.message) ∧
    (∀ (account pool : String) (nsz : Option Int) (sl : Option String) (wait : Bool),
        sdk.pools_begin_create_or_update rg account pool (updateBody nsz sl) = .error e →
        ¬(nsz = none ∧ sl = none) →
        (update_pool sdk rg account pool nsz sl wait).fst = .error e.status_code e.message) ∧
    (∀ (account pool : String) (nsz : Option Int) (sl : Option String) (p : Poller),
        sdk.pools_begin_create_or_update rg account pool (updateBody nsz sl) = .ok p →
        p.result = .error e → ¬(nsz = none ∧ sl = none) →
        (update_pool sdk rg account pool nsz sl true).fst = .error e.status_code e.message) ∧
    (∀ (account pool : String) (wait : Bool),
        sdk.pools_begin_delete rg account pool = .error e →
        (delete_pool sdk rg account pool wait).fst = .error e.status_code e.message) ∧
    (∀ (account pool : String) (p : Poller),
        sdk.pools_begin_delete rg account pool = .ok p → p.result = .error e →
        (delete_pool sdk rg account pool true).fst = .error e.status_code e.message) ∧
    (∀ (body : AccountCreateBody) (wait : Bool),
        sdk.accounts_begin_create_or_update rg body.name (accountParams body) = .error e →
        (create_account sdk rg body wait).fst = .error e.status_code e.message) ∧
    (∀ (body : AccountCreateBody) (p : Poller),
        sdk.accounts_begin_create_or_update rg body.name (accountParams body) = .ok p →
        p.result = .error e →
        (create_account sdk rg body true).fst = .error e.status_code e.message) ∧
    (∀ (name : String) (wait : Bool),
        sdk.accounts_begin_delete rg name = .error e →
        (delete_account sdk rg name wait).fst = .error e.status_code e.message) ∧
    (∀ (name : String) (p : Poller),
        sdk.accounts_begin_delete rg name = .ok p → p.result = .error e →
        (delete_account sdk rg name true).fst = .error e.status_code e.message) := by
  refine ⟨?_, ?_, ?_, ?_, ?_, ?_, ?_, ?_, ?_, ?_⟩
  · intro body wait h
    simp [create_pool, h, sdk_error]
  · intro body p h hr
    simp [create_pool, h, hr, sdk_error]
  · intro account pool nsz sl wait h hne
    simp [update_pool, hne, h, sdk_error]
  · intro account pool nsz sl p h hr hne
    simp [update_pool, hne, h, hr, sdk_error]
  · intro account pool wait h
    simp [delete_pool, h, sdk_error]
  · intro account pool p h hr
    simp [delete_pool, h, hr, sdk_error]
  · intro body wait h
    simp [create_account, h, sdk_error]
  · intro body p h hr
    simp [create_account, h, hr, sdk_error]
  · intro name wait h
    simp [delete_account, h, sdk_error]
  · intro name p h hr
    simp [delete_account, h, hr, sdk_error]

/-- C6, witness: a synchronous rejection of a pool create and an
LRO-completion failure of an account delete, both surfacing the remote 409
and its message verbatim. -/
theorem c6_error_passthrough_witness :
    (create_pool errSdk "rg" okPoolBody false).fst =
      .error stubErr.status_code stubErr.message ∧
    (delete_account lroFailSdk "rg" "acct1" true).fst =
      .error stubErr.status_code stubErr.message :=
  ⟨(c6_error_passthrough errSdk "rg" stubErr).1 okPoolBody false rfl,
   (c6_error_passthrough lroFailSdk "rg" stubErr).2.2.2.2.2.2.2.2.2 "acct1" failPoller rfl rfl⟩

/-- C7: every mutating handler invocation that passes validation issues
exactly one mutating call to the external control-plane client, whatever
the wait flag and whatever the outcome of the call or of its LRO; no
retries occur. -/
theorem c7_single_mutating_call (sdk : NetAppSdk) (rg : String) :
    (∀ (body : PoolBody) (wait : Bool),
        mutatingCalls (create_pool sdk rg body wait).snd = 1) ∧
    (∀ (account pool : String) (nsz : Option Int) (sl : Option String) (wait : Bool),
        ¬(nsz = none ∧ sl = none) →
        mutatingCalls (update_pool sdk rg account pool nsz sl wait).snd = 1) ∧
    (∀ (account pool : String) (wait : Bool),
        mutatingCalls (delete_pool sdk rg account pool wait).snd = 1) ∧
    (∀ (body : AccountCreateBody) (wait : Bool),
        mutatingCalls (create_account sdk rg body wait).snd = 1) ∧
    (∀ (name : String) (wait : Bool),
        mutatingCalls (delete_account sdk rg name wait).snd = 1) := by
  refine ⟨?_, ?_, ?_, ?_, ?_⟩
  · intro body wait
    cases h : sdk.pools_begin_create_or_update rg body.account body.pool (poolParams body) with
    | error e => simp [create_pool, h, mutatingCalls, SdkCall.isMutating]
    | ok p =>
      cases wait with
      | false => simp [create_pool, h, mutatingCalls, SdkCall.isMutating]
      | true =>
        cases hr : p.result with
        | error e => simp [create_pool, h, hr, mutatingCalls, SdkCall.isMutating]
        | ok r => simp [create_pool, h, hr, mutatingCalls, SdkCall.isMutating]
  · intro account pool nsz sl wait hne
    cases h : sdk.pools_begin_create_or_update rg account pool (updateBody nsz sl) with
    | error e => simp [update_pool, hne, h, mutatingCalls, SdkCall.isMutating]
    | ok p =>
      cases wait with
      | false => simp [update_pool, hne, h, mutatingCalls, SdkCall.isMutating]
      | true =>
        cases hr : p.result with
        | error e => simp [update_pool, hne, h, hr, mutatingCalls, SdkCall.isMutating]
        | ok r => simp [update_pool, hne, h, hr, mutatingCalls, SdkCall.isMutating]
  · intro account pool wait
    cases h : sdk.pools_begin_delete rg account pool with
    | error e => simp [delete_pool, h, mutatingCalls, SdkCall.isMutating]
    | ok p =>
      cases wait with
      | false => simp [delete_pool, h, mutatingCalls, SdkCall.isMutating]
      | true =>
        cases hr : p.result with
        | error e => simp [delete_pool, h, hr, mutatingCalls, SdkCall.isMutating]
        | ok r => simp [delete_pool, h, hr, mutatingCalls, SdkCall.isMutating]
  · intro body wait
    cases h : sdk.accounts_begin_create_or_update rg body.name (accountParams body) with
    | error e => simp [create_account, h, mutatingCalls, SdkCall.isMutating]
    | ok p =>
      cases wait with
      | false => simp [create_account, h, mutatingCalls, SdkCall.isMutating]
      | true =>
        cases hr : p.result with
        | error e => simp [create_account, h, hr, mutatingCalls, SdkCall.isMutating]
        | ok r => simp [create_account, h, hr, mutatingCalls, SdkCall.isMutating]
  · intro name wait
    cases h : sdk.accounts_begin_delete rg name with
    | error e => simp [delete_account, h, mutatingCalls, SdkCall.isMutating]
    | ok p =>
      cases wait with
      | false => simp [delete_account, h, mutatingCalls, SdkCall.isMutating]
      | true =>
        cases hr : p.result with
        | error e => simp [delete_account, h, hr, mutatingCalls, SdkCall.isMutating]
        | ok r => simp [delete_account, h, hr, mutatingCalls, SdkCall.isMutating]

/-- C7, witness: one mutating call per invocation on the stub collaborator,
across routes and wait flags, and also when the call is rejected. -/
theorem c7_single_mutating_call_witness :
    mutatingCalls (create_pool stubSdk "rg" okPoolBody true).snd = 1 ∧
    mutatingCalls (update_pool stubSdk "rg" "acct1" "pool1" (some 4) none false).snd = 1 ∧
    mutatingCalls (delete_pool stubSdk "rg" "acct1" "pool1" false).snd = 1 ∧
    mutatingCalls (create_account errSdk "rg" okAccountBody false).snd = 1 ∧
    mutatingCalls (delete_account lroFailSdk "rg" "acct1" true).snd = 1 :=
  ⟨(c7_single_mutating_call stubSdk "rg").1 okPoolBody true,
   (c7_single_mutating_call stubSdk "rg").2.1 "acct1" "pool1" (some 4) none false (by simp),
   (c7_single_mutating_call stubSdk "rg").2.2.1 "acct1" "pool1" false,
   (c7_single_mutating_call errSdk "rg").2.2.2.1 okAccountBody false,
   (c7_single_mutating_call lroFailSdk "rg").2.2.2.2 "acct1" true⟩

/-- C8: the thin client's request operation fails with an `ApiError`
carrying the response status and body (as the message
`f"{status_code} {text}"`) whenever the status is outside the success
range (400 or above), returns the JSON-decoded payload otherwise, and
performs exactly one transport call — no retries. -/
theorem c8_thin_client (transport : String → String → HttpWireResponse)
    (base_url method path : String) :
    ((transport method (base_url ++ path)).status_code ≥ 400 →
      (AnfMcpClient.request transport base_url method path).fst =
        .error ⟨toString (transport method (base_url ++ path)).status_code ++ " " ++
                (transport method (base_url ++ path)).text⟩) ∧
    ((transport method (base_url ++ path)).status_code < 400 →
      (AnfMcpClient.request transport base_url method path).fst =
        .ok (transport method (base_url ++ path)).json) ∧
    (AnfMcpClient.request transport base_url method path).snd = 1 := by
  refine ⟨fun h => ?_, fun h => ?_, ?_⟩
  · simp [AnfMcpClient.request, h]
  · simp [AnfMcpClient.request, Nat.not_le.mpr h]
  · simp only [AnfMcpClient.request]
    split <;> rfl

/-- C8, witness: a 500 response raises `ApiError "500 boom"`, a 200 response
yields the decoded payload, and each call uses the transport once. -/
theorem c8_thin_client_witness :
    (AnfMcpClient.request (fun _ _ => ⟨500, "boom", .null⟩) "http://h" "GET" "/accounts").fst =
      .error ⟨"500 boom"⟩ ∧
    (AnfMcpClient.request (fun _ _ => ⟨200, "[]", .arr []⟩) "http://h" "GET" "/accounts").fst =
      .ok (.arr []) ∧
    (AnfMcpClient.request (fun _ _ => ⟨500, "boom", .null⟩) "http://h" "GET" "/accounts").snd
      = 1 :=
  ⟨(c8_thin_client (fun _ _ => ⟨500, "boom", .null⟩) "http://h" "GET" "/accounts").1
     (by decide),
   (c8_thin_client (fun _ _ => ⟨200, "[]", .arr []⟩) "http://h" "GET" "/accounts").2.1
     (by decide),
   (c8_thin_client (fun _ _ => ⟨500, "boom", .null⟩) "http://h" "GET" "/accounts").2.2⟩

/-- C9: with MCP_API_KEY unset, the server's API_KEY defaults to the literal
"changeme", a request presenting x-api-key = "changeme" passes `verify_key`
and reaches its handler, and the thin client constructed without an
explicit key resolves the same default. -/
theorem c9_default_key (env : String → Option String) (h : env "MCP_API_KEY" = none) :
    API_KEY env = "changeme" ∧
    verify_key (API_KEY env) "changeme" = none ∧
    (∀ (sdk : NetAppSdk) (rg : String),
        app_handle sdk rg (API_KEY env) (some "changeme") .listAccounts =
          list_accounts sdk rg) ∧
    AnfMcpClient.init_api_key env none = "changeme" := by
  have hkey : API_KEY env = "changeme" := by simp [API_KEY, getenv, h]
  refine ⟨hkey, ?_, ?_, ?_⟩
  · simp [verify_key, hkey]
  · intro sdk rg
    simp [app_handle, verify_key, hkey, dispatch]
  · simp [AnfMcpClient.init_api_key, h]

/-- C9, witness: the empty environment, with the dispatch conjunct
instantiated on the stub collaborator. -/
theorem c9_default_key_witness :
    API_KEY (fun _ => none) = "changeme" ∧
    verify_key (API_KEY (fun _ => none)) "changeme" = none ∧
    app_handle stubSdk "rg" (API_KEY (fun _ => none)) (some "changeme") .listAccounts =
      list_accounts stubSdk "rg" ∧
    AnfMcpClient.init_api_key (fun _ => none) none = "changeme" :=
  ⟨(c9_default_key (fun _ => none) rfl).1,
   (c9_default_key (fun _ => none) rfl).2.1,
   (c9_default_key (fun _ => none) rfl).2.2.1 stubSdk "rg",
   (c9_default_key (fun _ => none) rfl).2.2.2⟩

end ANF
